import Mathlib

/-!
Verification development for the TDC molecular-oracle subsystem
(src/tdc/chem_utils/oracle.py).

The numeric parts of the code that the claims exercise are embedded as
Lean definitions.  Purely external collaborators (the RDKit chemistry
toolkit, pickled classifier models, the fragment-score artifact) are
modelled as an abstract adapter record; everything written in the
repository itself (control flow, arithmetic, fallback values, the
retrosynthesis-tree traversal) is translated statement by statement
from the source.  Python exceptions raised inside repository code are
modelled with Option/Except; a value of the form Except.error or
Option.none marks the point where the Python code raises.
-/

set_option maxHeartbeats 1000000

namespace TDC

open scoped Classical

/-! ### Retrosynthesis tree analyzer (oracle.py, tree_analysis, lines 1073-1131)

A node of the tree-builder result carries a purchase price (the key
named ppg), a plausibility value and a list of children.  Prices and
plausibilities are kept as rationals so that concrete runs of the
analyzer can be evaluated by the kernel. -/

inductive RTNode : Type where
  | mk : ℚ → ℚ → List RTNode → RTNode

def RTNode.ppg : RTNode → ℚ
  | .mk p _ _ => p

def RTNode.plausibility : RTNode → ℚ
  | .mk _ q _ => q

def RTNode.children : RTNode → List RTNode
  | .mk _ _ c => c

mutual

/-- Size measure used only to show that the while loop of tree_analysis
terminates: the frontier of the next iteration is the concatenation of
all children lists of the current frontier, which is strictly smaller. -/
def RTNode.nodeSize : RTNode → ℕ
  | .mk _ _ cs => 1 + RTNode.sizeList cs

/-- Total size of a list of nodes (sum of the sizes of its members). -/
def RTNode.sizeList : List RTNode → ℕ
  | [] => 0
  | n :: rest => RTNode.nodeSize n + RTNode.sizeList rest

end

/-- Top-level shape of the tree-builder response consumed by
tree_analysis: the Python dict may carry an error marker, a price key
or a trees key.  Accessing a missing trees key raises a KeyError in
Python, which the embedding returns as Option.none. -/
structure TBResult where
  hasError : Bool
  priceKey : Option ℚ
  treesKey : Option (List RTNode)

/-- Return value of tree_analysis.  The status dictionary of the Python
code has strictly increasing half-integer keys inserted in order, so it
is modelled as an association list whose key counts half-steps: the key
k stands for the Python depth k/2. -/
structure AnalysisResult where
  num_path : ℤ
  status : List (ℕ × ℕ)
  num_step : ℤ
  p_score : ℚ
  synthesizability : ℤ
  price : ℚ
deriving DecidableEq

/-- Product of the plausibility fields of a frontier, accumulated by
the odd (half-integer depth) iterations of the loop. -/
def prodPlausibility (l : List RTNode) : ℚ := (l.map RTNode.plausibility).prod

/-- Sum of the ppg fields of a frontier, accumulated by the even
(whole-integer depth) iterations of the loop. -/
def sumPpg (l : List RTNode) : ℚ := (l.map RTNode.ppg).sum

theorem sizeList_append (a b : List RTNode) :
    RTNode.sizeList (a ++ b) = RTNode.sizeList a + RTNode.sizeList b := by
  induction a with
  | nil => simp [RTNode.sizeList]
  | cons n rest ih => simp [RTNode.sizeList, ih]; ring

theorem sizeList_bind_add_length (l : List RTNode) :
    RTNode.sizeList (l.flatMap RTNode.children) + l.length = RTNode.sizeList l := by
  induction l with
  | nil => simp [RTNode.sizeList]
  | cons n rest ih =>
      cases n with
      | mk p q cs =>
          simp only [List.flatMap_cons, sizeList_append, RTNode.children, RTNode.sizeList,
            RTNode.nodeSize, List.length_cons]
          omega

theorem sizeList_bind_lt (l : List RTNode) (h : l ≠ []) :
    RTNode.sizeList (l.flatMap RTNode.children) < RTNode.sizeList l := by
  have hlen : 0 < l.length := List.length_pos.mpr h
  have := sizeList_bind_add_length l
  omega

/-- Embeds the while loop of tree_analysis (lines 1105-1121).  The
argument dh counts depth in half units (Python depth = dh / 2), pScore
and price are the running accumulators, and status is the association
list standing for the status dict.  Each iteration first increments the
depth by one half step, gathers all children of the frontier, stops if
there are none, otherwise multiplies plausibilities on half-integer
depths and sums prices on whole-integer depths, then records the child
count and recurses on the gathered children. -/
def treeLoop (frontier : List RTNode) (dh : ℕ) (pScore : ℚ) (price : ℚ)
    (status : List (ℕ × ℕ)) : ℕ × ℚ × ℚ × List (ℕ × ℕ) :=
  if h : (frontier.flatMap RTNode.children).length = 0 then
    (dh + 1, pScore, price, status)
  else
    treeLoop (frontier.flatMap RTNode.children) (dh + 1)
      (if (dh + 1) % 2 = 1 then pScore * prodPlausibility (frontier.flatMap RTNode.children)
       else pScore)
      (if (dh + 1) % 2 = 1 then price
       else price + sumPpg (frontier.flatMap RTNode.children))
      (status ++ [(dh + 1, (frontier.flatMap RTNode.children).length)])
termination_by RTNode.sizeList frontier
decreasing_by
  apply sizeList_bind_lt
  intro hnil
  apply h
  rw [hnil]
  rfl

/-- Embeds the epilogue of tree_analysis after the loop (lines
1122-1131): runs the loop from depth 0 with the initial status dict
holding the single entry 0 -> 1, decides synthesizability from the
number of recorded depth levels, and applies the no-expansion fallback
(step count forced to 11 and price forced to -1 when the integer part
of depth - 0.5 is zero). -/
def runLoop (frontier : List RTNode) (num_path : ℤ) : AnalysisResult :=
  let r := treeLoop frontier 0 1 0 [(0, 1)]
  let synthesizability : ℤ := if 1 < r.2.2.2.length then 1 else 0
  if (r.1 - 1) / 2 = 0 then
    ⟨num_path, r.2.2.2, 11, r.2.1 * (synthesizability : ℚ), synthesizability, -1⟩
  else
    ⟨num_path, r.2.2.2, ((r.1 - 1) / 2 : ℕ), r.2.1 * (synthesizability : ℚ),
      synthesizability, r.2.2.1⟩

/-- Embeds tree_analysis (lines 1087-1131): the error marker is checked
first, then a directly carried price, then the trees list is read (a
missing trees key is the Python KeyError, returned as none).  A
non-empty trees list is cut down to its first tree, whose non-zero root
ppg short-circuits the traversal. -/
def tree_analysis (current : TBResult) : Option AnalysisResult :=
  if current.hasError then some ⟨-1, [], 11, -1, -1, -1⟩
  else
    match current.priceKey with
    | some p => some ⟨0, [], 0, 1, 1, p⟩
    | none =>
      match current.treesKey with
      | none => none
      | some trees =>
        match trees with
        | [] => some (runLoop [] 0)
        | t :: rest =>
          if t.ppg ≠ 0 then some ⟨0, [], 0, 1, 1, t.ppg⟩
          else some (runLoop [t] ((t :: rest).length : ℤ))

/-! ### ScoreModifier algebra (oracle.py, lines 138-327)

Only the variants with constructor invariants, plus the Gaussian family
used by the claims, are embedded.  The remaining variants (Linear,
Squared, Absolute, Thresholded, Chained) have constructors that merely
store their parameters and perform no validation.  The Python assert of
the Clipped and SmoothClipped constructors is the ConfigurationError of
the error taxonomy; a float division by zero in a constructor is a
distinct ZeroDivisionError.  Both belong to construction: the apply
methods are total functions and are embedded with plain function
types. -/

inductive ModifierError : Type where
  | configurationError
  | zeroDivisionError
deriving DecidableEq

structure GaussianModifier where
  mu : ℝ
  sigma : ℝ

/-- Embeds GaussianModifier.__call__ (line 226): exp of -0.5 times the
squared sigma-normalized distance from mu. -/
noncomputable def GaussianModifier.apply (g : GaussianModifier) (x : ℝ) : ℝ :=
  Real.exp (-0.5 * ((x - g.mu) / g.sigma) ^ 2)

structure MinMaxGaussianModifier where
  mu : ℝ
  sigma : ℝ
  minimize : Bool

/-- Embeds MinMaxGaussianModifier.__call__ (lines 242-247): the input
is clamped to one side of mu before the full Gaussian is evaluated. -/
noncomputable def MinMaxGaussianModifier.apply (g : MinMaxGaussianModifier) (x : ℝ) : ℝ :=
  GaussianModifier.apply ⟨g.mu, g.sigma⟩ (if g.minimize then max x g.mu else min x g.mu)

noncomputable def MinGaussianModifier (mu sigma : ℝ) : MinMaxGaussianModifier := ⟨mu, sigma, true⟩

noncomputable def MaxGaussianModifier (mu sigma : ℝ) : MinMaxGaussianModifier := ⟨mu, sigma, false⟩

structure ClippedScoreModifier where
  upper_x : ℝ
  lower_x : ℝ
  high_score : ℝ
  low_score : ℝ
  slope : ℝ
  intercept : ℝ

/-- Embeds ClippedScoreModifier.__init__ (lines 263-279): the assert on
low_score < high_score runs first (its failure is the
ConfigurationError of the taxonomy); afterwards the slope computation
divides by upper_x - lower_x, raising a ZeroDivisionError when the two
coincide. -/
noncomputable def mkClippedScoreModifier (upper_x lower_x high_score low_score : ℝ) :
    Except ModifierError ClippedScoreModifier :=
  if low_score < high_score then
    if upper_x = lower_x then Except.error ModifierError.zeroDivisionError
    else
      Except.ok ⟨upper_x, lower_x, high_score, low_score,
        (high_score - low_score) / (upper_x - lower_x),
        high_score - (high_score - low_score) / (upper_x - lower_x) * upper_x⟩
  else Except.error ModifierError.configurationError

/-- Embeds ClippedScoreModifier.__call__ (lines 281-283): linear map
followed by np.clip between low_score and high_score. -/
noncomputable def ClippedScoreModifier.apply (m : ClippedScoreModifier) (x : ℝ) : ℝ :=
  min m.high_score (max (m.slope * x + m.intercept) m.low_score)

structure SmoothClippedScoreModifier where
  upper_x : ℝ
  lower_x : ℝ
  high_score : ℝ
  low_score : ℝ
  k : ℝ
  middle_x : ℝ
  L : ℝ

/-- Embeds SmoothClippedScoreModifier.__init__ (lines 294-312): the
assert on low_score < high_score runs first; afterwards the steepness
computation divides 4.0 by upper_x - lower_x. -/
noncomputable def mkSmoothClippedScoreModifier (upper_x lower_x high_score low_score : ℝ) :
    Except ModifierError SmoothClippedScoreModifier :=
  if low_score < high_score then
    if upper_x = lower_x then Except.error ModifierError.zeroDivisionError
    else
      Except.ok ⟨upper_x, lower_x, high_score, low_score, 4 / (upper_x - lower_x),
        (upper_x + lower_x) / 2, high_score - low_score⟩
  else Except.error ModifierError.configurationError

/-- Embeds SmoothClippedScoreModifier.__call__ (lines 314-315): the
rescaled logistic curve. -/
noncomputable def SmoothClippedScoreModifier.apply (m : SmoothClippedScoreModifier) (x : ℝ) : ℝ :=
  m.low_score + m.L / (1 + Real.exp (-(m.k * (x - m.middle_x))))

/-! ### Molecular formula parsing (oracle.py, parse_molecular_formula, lines 680-700) -/

/-- Value of a decimal digit string, as computed by the Python int()
applied to the digit group of a token. -/
def digitsToNat (ds : List Char) : ℕ :=
  ds.foldl (fun acc c => acc * 10 + (c.toNat - 48)) 0

/-- Embeds re.findall with the pattern of one uppercase letter followed
by lowercase letters followed by digits: scanning left to right,
characters that cannot start a match are skipped silently, exactly as
re.findall does.  The fuel argument only bounds the recursion; fuel
equal to the input length never runs out, because every step consumes
at least one character. -/
def findTokensAux : ℕ → List Char → List (List Char × List Char)
  | 0, _ => []
  | _, [] => []
  | fuel + 1, c :: rest =>
    if c.isUpper then
      (c :: rest.takeWhile Char.isLower,
        (rest.dropWhile Char.isLower).takeWhile Char.isDigit) ::
        findTokensAux fuel ((rest.dropWhile Char.isLower).dropWhile Char.isDigit)
    else
      findTokensAux fuel rest

def findTokens (cs : List Char) : List (List Char × List Char) :=
  findTokensAux cs.length cs

/-- Embeds parse_molecular_formula (lines 680-700): each token found by
the scan contributes its element symbol and its count, the count
defaulting to 1 when the digit group is empty. -/
def parse_molecular_formula (formula : String) : List (String × ℕ) :=
  (findTokens formula.data).map (fun t =>
    (String.mk t.1, if t.2 = [] then 1 else digitsToNat t.2))

/-- Total atom count of a parsed formula, as summed over the parsed
pairs in Isomer_scoring.__init__ (line 710). -/
def totalAtomCount (formula : String) : ℕ :=
  ((parse_molecular_formula formula).map (fun ac => ac.2)).sum

/-! ### Synthetic accessibility estimator
(oracle.py, calculateScore lines 356-410 and SA lines 576-592)

The external toolkit delivers the per-molecule inputs of
calculateScore: the nonzero elements of the radius-2 Morgan
fingerprint as identifier/count pairs, the atom count, the chiral
center count, the spiro and bridgehead counts and the ring sizes. -/

structure MolFeatures where
  fragments : List (ℤ × ℕ)
  nAtoms : ℕ
  nChiralCenters : ℕ
  nSpiro : ℕ
  nBridgeheads : ℕ
  ringSizes : List ℕ

/-- Literature constant named min in calculateScore (line 402). -/
noncomputable def saMin : ℝ := -4

/-- Literature constant named max in calculateScore (line 403). -/
noncomputable def saMax : ℝ := 5 / 2

/-- Embeds the rescaling step of calculateScore (line 404). -/
noncomputable def saRescale (raw : ℝ) : ℝ :=
  11 - (raw - saMin + 1) / (saMax - saMin) * 9

/-- Embeds the high-end smoothing of calculateScore (line 406): the
source computes 8 + log(sascore + 1 - 9) when sascore exceeds 8. -/
noncomputable def saSmooth (s : ℝ) : ℝ :=
  if 8 < s then 8 + Real.log (s + 1 - 9) else s

/-- Smoothing step as the specification states it in its rule 5, for
comparison with the source: 8 + ln(final - 8 + 1).  Modelled from the
spec, not from the source. -/
noncomputable def saSmoothSpecC5 (s : ℝ) : ℝ :=
  if 8 < s then 8 + Real.log (s - 8 + 1) else s

/-- Embeds the final clamp of calculateScore (lines 407-408). -/
noncomputable def saClamp (s : ℝ) : ℝ :=
  if 10 < s then 10 else if s < 1 then 1 else s

/-- Rescale, smooth and clamp in source order (lines 401-408). -/
noncomputable def rescaleSmoothClamp (raw : ℝ) : ℝ :=
  saClamp (saSmooth (saRescale raw))

/-- Total fragment occurrence count, named nf in calculateScore (lines
363-365). -/
def fragmentTotal (m : MolFeatures) : ℕ := (m.fragments.map (fun bv => bv.2)).sum

/-- Embeds calculateScore (lines 356-410).  The none result models the
ZeroDivisionError that the source raises at line 368 when the molecule
yields no fragments (nf = 0).  Otherwise the fragment score, the
feature penalties and the density correction are summed and pushed
through the rescale/smooth/clamp pipeline. -/
noncomputable def calculateScore (fscores : ℤ → Option ℝ) (m : MolFeatures) : Option ℝ :=
  if fragmentTotal m = 0 then none
  else
    some (rescaleSmoothClamp (
      (m.fragments.map (fun bv => ((fscores bv.1).getD (-4)) * (bv.2 : ℝ))).sum
          / (fragmentTotal m : ℝ)
      + (0 - ((m.nAtoms : ℝ) ^ (1.005 : ℝ) - (m.nAtoms : ℝ))
          - Real.logb 10 ((m.nChiralCenters : ℝ) + 1)
          - Real.logb 10 ((m.nSpiro : ℝ) + 1)
          - Real.logb 10 ((m.nBridgeheads : ℝ) + 1)
          - (if 0 < (m.ringSizes.filter (fun r => 8 < r)).length
             then Real.logb 10 2 else 0))
      + (if m.fragments.length < m.nAtoms
         then Real.log ((m.nAtoms : ℝ) / (m.fragments.length : ℝ)) * 0.5 else 0)))

/-! ### Chemistry toolkit adapter boundary (spec section 4.2)

The external toolkit is out of scope for the repository; its functions
enter the embedding as an abstract record.  Every function of the
record is total over parsed molecules; the only failure the repository
can observe from the parser is the none result of MolFromSmiles. -/

inductive ChemError : Type where
  | nullMolecule
  | constructionFailure
deriving DecidableEq

structure ChemAdapter (Mol FP : Type) where
  molFromSmiles : String → Option Mol
  sanitizeOk : Mol → Bool
  ecfp4 : Mol → FP
  fcfp4 : Mol → FP
  atomPair : Mol → FP
  ecfp6 : Mol → FP
  morganBits : Mol → FP
  tanimoto : FP → FP → ℝ
  qedVal : Mol → ℝ
  drd2Fingerprint : Mol → FP
  drd2Predict : FP → ℝ
  tpsa : Mol → ℝ
  mollogp : Mol → ℝ
  features : Mol → MolFeatures
  fscores : ℤ → Option ℝ

/-- Embeds smiles_to_rdkit_mol (lines 54-71): parse, then run the
sanitization check, mapping a sanitization failure to None. -/
def smiles_to_rdkit_mol {Mol FP : Type} (A : ChemAdapter Mol FP) (s : String) : Option Mol :=
  match A.molFromSmiles s with
  | none => none
  | some m => if A.sanitizeOk m then some m else none

/-- Embeds smiles_2_fingerprint_ECFP4 (lines 73-85): the fingerprint of
the parsed molecule; passing the None of a failed parse into the
toolkit fingerprint call raises, which the embedding returns as the
nullMolecule error. -/
def smiles_2_fingerprint_ECFP4 {Mol FP : Type} (A : ChemAdapter Mol FP) (s : String) :
    Except ChemError FP :=
  match smiles_to_rdkit_mol A s with
  | none => Except.error ChemError.nullMolecule
  | some m => Except.ok (A.ecfp4 m)

/-- Embeds smiles_2_fingerprint_FCFP4 (lines 88-100). -/
def smiles_2_fingerprint_FCFP4 {Mol FP : Type} (A : ChemAdapter Mol FP) (s : String) :
    Except ChemError FP :=
  match smiles_to_rdkit_mol A s with
  | none => Except.error ChemError.nullMolecule
  | some m => Except.ok (A.fcfp4 m)

/-- Embeds smiles_2_fingerprint_AP (lines 103-115). -/
def smiles_2_fingerprint_AP {Mol FP : Type} (A : ChemAdapter Mol FP) (s : String) :
    Except ChemError FP :=
  match smiles_to_rdkit_mol A s with
  | none => Except.error ChemError.nullMolecule
  | some m => Except.ok (A.atomPair m)

/-- Embeds smiles_2_fingerprint_ECFP6 (lines 117-129). -/
def smiles_2_fingerprint_ECFP6 {Mol FP : Type} (A : ChemAdapter Mol FP) (s : String) :
    Except ChemError FP :=
  match smiles_to_rdkit_mol A s with
  | none => Except.error ChemError.nullMolecule
  | some m => Except.ok (A.ecfp6 m)

inductive FPKind : Type where
  | ECFP4
  | FCFP4
  | AP
  | ECFP6

/-- Embeds the fp2fpfunc dispatch table (lines 131-135). -/
def fp2fpfunc {Mol FP : Type} (A : ChemAdapter Mol FP) : FPKind → String → Except ChemError FP
  | FPKind.ECFP4 => smiles_2_fingerprint_ECFP4 A
  | FPKind.FCFP4 => smiles_2_fingerprint_FCFP4 A
  | FPKind.AP => smiles_2_fingerprint_AP A
  | FPKind.ECFP6 => smiles_2_fingerprint_ECFP6 A

/-- Embeds similarity (lines 494-513): a None argument or a failed
parse of either side yields the 0.0 fallback, otherwise Tanimoto
similarity of the two bit-vector Morgan fingerprints. -/
def similarity {Mol FP : Type} (A : ChemAdapter Mol FP) (a b : Option String) : ℝ :=
  match a, b with
  | some stra, some strb =>
    match A.molFromSmiles stra, A.molFromSmiles strb with
    | some am, some bm => A.tanimoto (A.morganBits am) (A.morganBits bm)
    | _, _ => 0
  | _, _ => 0

/-- Embeds qed (lines 515-530): fallback 0.0 for None or unparseable
input, otherwise the toolkit QED value. -/
def qed {Mol FP : Type} (A : ChemAdapter Mol FP) (s : Option String) : ℝ :=
  match s with
  | none => 0
  | some str =>
    match A.molFromSmiles str with
    | none => 0
    | some m => A.qedVal m

/-- Embeds drd2 (lines 435-456): fallback 0.0 for unparseable input,
otherwise the classifier probability on the molecule fingerprint. -/
def drd2 {Mol FP : Type} (A : ChemAdapter Mol FP) (s : String) : ℝ :=
  match A.molFromSmiles s with
  | none => 0
  | some m => A.drd2Predict (A.drd2Fingerprint m)

/-- Embeds SA (lines 576-592): the fixed sentinel 100 for a None
argument or an unparseable string, otherwise calculateScore of the
parsed molecule. -/
noncomputable def SA {Mol FP : Type} (A : ChemAdapter Mol FP) (s : Option String) : Option ℝ :=
  match s with
  | none => some 100
  | some str =>
    match A.molFromSmiles str with
    | none => some 100
    | some m => calculateScore A.fscores (A.features m)

/-- Embeds rediscovery_meta.__init__ (lines 731-733): the target
fingerprint computed once from the target structure. -/
def rediscovery_meta_init {Mol FP : Type} (A : ChemAdapter Mol FP) (k : FPKind)
    (target_smiles : String) : Except ChemError FP :=
  fp2fpfunc A k target_smiles

/-- Embeds rediscovery_meta.__call__ (lines 735-738): the test
fingerprint is computed with no None check, so an unparseable test
string propagates the toolkit failure instead of producing a score. -/
def rediscovery_meta_call {Mol FP : Type} (A : ChemAdapter Mol FP) (k : FPKind)
    (target_fp : FP) (test_smiles : String) : Except ChemError ℝ :=
  match fp2fpfunc A k test_smiles with
  | Except.error e => Except.error e
  | Except.ok test_fp => Except.ok (A.tanimoto target_fp test_fp)

/-- Geometric mean as computed by scipy gmean: exp of the average of
the elementwise logs. -/
noncomputable def gmean (l : List ℝ) : ℝ :=
  Real.exp ((l.map Real.log).sum / (l.length : ℝ))

/-- Reference structure hardcoded in osimertinib_mpo (line 805). -/
def osimertinib_smiles : String :=
  "COc1cc(N(C)CCN(C)C)c(NC(=O)C=C)cc1Nc2nccc(n2)c3cn(C)c4ccccc34"

/-- Embeds osimertinib_mpo (lines 801-824) in source order: reference
fingerprints of the literal structure, modifier construction, then the
fingerprints and descriptors of the candidate, combined by the
geometric mean.  The candidate molecule itself is computed before the
candidate fingerprints (line 815), but a failed parse first raises in
the FCFP4 fingerprint call (line 816), before any descriptor touches
the None molecule (line 818); the nested matches reproduce that raise
order. -/
noncomputable def osimertinib_mpo {Mol FP : Type} (A : ChemAdapter Mol FP)
    (test_smiles : String) : Except ChemError ℝ :=
  match smiles_2_fingerprint_FCFP4 A osimertinib_smiles with
  | Except.error e => Except.error e
  | Except.ok osi_fcfp4 =>
    match smiles_2_fingerprint_ECFP6 A osimertinib_smiles with
    | Except.error e => Except.error e
    | Except.ok osi_ecfp6 =>
      match mkClippedScoreModifier 0.8 0 1 0 with
      | Except.error _ => Except.error ChemError.constructionFailure
      | Except.ok sim_v1_modifier =>
        match smiles_2_fingerprint_FCFP4 A test_smiles with
        | Except.error e => Except.error e
        | Except.ok fp_fcfc4 =>
          match smiles_2_fingerprint_ECFP6 A test_smiles with
          | Except.error e => Except.error e
          | Except.ok fp_ecfc6 =>
            match smiles_to_rdkit_mol A test_smiles with
            | none => Except.error ChemError.nullMolecule
            | some m =>
              Except.ok (gmean
                [(MaxGaussianModifier 100 10).apply (A.tpsa m),
                 (MinGaussianModifier 1 1).apply (A.mollogp m),
                 sim_v1_modifier.apply (A.tanimoto osi_fcfp4 fp_fcfc4),
                 (MinGaussianModifier 0.85 0.1).apply (A.tanimoto osi_ecfp6 fp_ecfc6)])

/-! ### Concrete adapters used to instantiate theorems at concrete inputs -/

/-- Test adapter whose parser rejects every string; the external
numeric outputs are fixed constants. -/
noncomputable def noParseAdapter : ChemAdapter Unit Unit where
  molFromSmiles := fun _ => none
  sanitizeOk := fun _ => true
  ecfp4 := fun _ => ()
  fcfp4 := fun _ => ()
  atomPair := fun _ => ()
  ecfp6 := fun _ => ()
  morganBits := fun _ => ()
  tanimoto := fun _ _ => 1
  qedVal := fun _ => 1
  drd2Fingerprint := fun _ => ()
  drd2Predict := fun _ => 1
  tpsa := fun _ => 1
  mollogp := fun _ => 1
  features := fun _ => ⟨[], 0, 0, 0, 0, []⟩
  fscores := fun _ => none

/-- Test adapter that parses every string to a molecule with no atoms
and no fragments, the shape the toolkit returns for an empty input
string. -/
noncomputable def emptyMolAdapter : ChemAdapter Unit Unit where
  molFromSmiles := fun _ => some ()
  sanitizeOk := fun _ => true
  ecfp4 := fun _ => ()
  fcfp4 := fun _ => ()
  atomPair := fun _ => ()
  ecfp6 := fun _ => ()
  morganBits := fun _ => ()
  tanimoto := fun _ _ => 1
  qedVal := fun _ => 1
  drd2Fingerprint := fun _ => ()
  drd2Predict := fun _ => 1
  tpsa := fun _ => 1
  mollogp := fun _ => 1
  features := fun _ => ⟨[], 0, 0, 0, 0, []⟩
  fscores := fun _ => none

/-- Test adapter that parses every string to a one-atom molecule with a
single fragment occurrence. -/
noncomputable def oneFragAdapter : ChemAdapter Unit Unit where
  molFromSmiles := fun _ => some ()
  sanitizeOk := fun _ => true
  ecfp4 := fun _ => ()
  fcfp4 := fun _ => ()
  atomPair := fun _ => ()
  ecfp6 := fun _ => ()
  morganBits := fun _ => ()
  tanimoto := fun _ _ => 1
  qedVal := fun _ => 1
  drd2Fingerprint := fun _ => ()
  drd2Predict := fun _ => 1
  tpsa := fun _ => 1
  mollogp := fun _ => 1
  features := fun _ => ⟨[(0, 1)], 1, 0, 0, 0, []⟩
  fscores := fun _ => none

/-! ### Helper lemmas -/

/-- Run of the analyzer loop on the empty frontier: the very first
iteration finds no children and breaks, leaving depth 0.5 (one half
step), the initial accumulators and the initial status dict. -/
theorem treeLoop_nil : treeLoop [] 0 1 0 [(0, 1)] = (1, 1, 0, [(0, 1)]) := by
  unfold treeLoop
  simp

/-- Evaluation of tree_analysis on the empty trees list, traced through
the loop and the no-expansion fallback. -/
theorem tree_analysis_emptyTrees :
    tree_analysis ⟨false, none, some []⟩ = some ⟨0, [(0, 1)], 11, 0, 0, -1⟩ := by
  simp [tree_analysis, runLoop, treeLoop_nil]

/-- The final clamp of calculateScore keeps every input inside the
closed interval from 1 to 10. -/
theorem saClamp_range (s : ℝ) : 1 ≤ saClamp s ∧ saClamp s ≤ 10 := by
  unfold saClamp
  by_cases h10 : 10 < s
  · rw [if_pos h10]
    norm_num
  · rw [if_neg h10]
    by_cases h1 : s < 1
    · rw [if_pos h1]
      norm_num
    · rw [if_neg h1]
      push_neg at h10 h1
      exact ⟨h1, h10⟩

/-- The rescale, smooth and clamp pipeline of calculateScore always
lands inside the closed interval from 1 to 10. -/
theorem rescaleSmoothClamp_range (raw : ℝ) :
    1 ≤ rescaleSmoothClamp raw ∧ rescaleSmoothClamp raw ≤ 10 := by
  unfold rescaleSmoothClamp
  exact saClamp_range _

/-- The ClippedScoreModifier construction of osimertinib_mpo with its
literal parameters succeeds. -/
theorem mkClipped_point8 : ∃ m, mkClippedScoreModifier 0.8 0 1 0 = Except.ok m := by
  unfold mkClippedScoreModifier
  rw [if_pos (by norm_num), if_neg (by norm_num)]
  exact ⟨_, rfl⟩

/-! ### Claim theorems -/

/-- C1: for every analyzed result that carries an error marker,
tree_analysis returns exactly the sentinel tuple with numPaths -1,
empty depthStatus, stepCount 11, plausibility -1, synthesizability -1
and price -1. -/
theorem tree_analysis_error_sentinel (current : TBResult) (h : current.hasError = true) :
    tree_analysis current = some ⟨-1, [], 11, -1, -1, -1⟩ := by
  simp [tree_analysis, h]

/-- Witness for C1 at the concrete result that carries the error
marker. -/
theorem tree_analysis_error_sentinel_witness :
    (TBResult.mk true none none).hasError = true ∧
      tree_analysis (TBResult.mk true none none) = some ⟨-1, [], 11, -1, -1, -1⟩ :=
  ⟨rfl, tree_analysis_error_sentinel (TBResult.mk true none none) rfl⟩

/-- C2 counterexample: on the input with an empty trees list the
analyzer does not return the tuple the claim states; the status dict is
the initial singleton with key 0 and value 1 (not empty) and the
returned plausibility is the running product times synthesizability,
which is 0 (not -1). -/
theorem tree_analysis_empty_trees_counterexample :
    tree_analysis ⟨false, none, some []⟩ ≠ some ⟨0, [], 11, -1, 0, -1⟩ := by
  rw [tree_analysis_emptyTrees]
  decide

/-- C2 amended: tree_analysis applied to the input with an empty trees
list returns exactly numPaths 0, the singleton depthStatus mapping
depth 0 to 1, stepCount forced to 11, plausibility 0, synthesizability
0 and price -1. -/
theorem tree_analysis_empty_trees_amended :
    tree_analysis ⟨false, none, some []⟩ = some ⟨0, [(0, 1)], 11, 0, 0, -1⟩ :=
  tree_analysis_emptyTrees

/-- C7: a result that directly carries a price key returns zero paths,
empty status, zero steps, plausibility 1, synthesizability 1 and that
price; and when the first tree of a non-empty trees list has a non-zero
root ppg, the analyzer short-circuits to the same shape with the root
price.  In the source the first component of the returned tuple is the
literal 0 in both branches. -/
theorem tree_analysis_price_shortcircuit (current : TBResult) :
    (∀ p : ℚ, current.hasError = false → current.priceKey = some p →
        tree_analysis current = some ⟨0, [], 0, 1, 1, p⟩) ∧
      (∀ (t : RTNode) (rest : List RTNode), current.hasError = false →
        current.priceKey = none → current.treesKey = some (t :: rest) → t.ppg ≠ 0 →
        tree_analysis current = some ⟨0, [], 0, 1, 1, t.ppg⟩) := by
  constructor
  · intro p he hp
    simp [tree_analysis, he, hp]
  · intro t rest he hp ht hppg
    simp [tree_analysis, he, hp, ht, hppg]

/-- Witness for C7 at a result carrying price 5 and at a result whose
first tree has root ppg 3. -/
theorem tree_analysis_price_shortcircuit_witness :
    tree_analysis ⟨false, some 5, none⟩ = some ⟨0, [], 0, 1, 1, 5⟩ ∧
      tree_analysis ⟨false, none, some [RTNode.mk 3 1 []]⟩ = some ⟨0, [], 0, 1, 1, 3⟩ :=
  ⟨(tree_analysis_price_shortcircuit ⟨false, some 5, none⟩).1 5 rfl rfl,
    (tree_analysis_price_shortcircuit ⟨false, none, some [RTNode.mk 3 1 []]⟩).2
      (RTNode.mk 3 1 []) [] rfl rfl rfl (by decide)⟩

/-- C6: the ClippedScoreModifier and SmoothClippedScoreModifier
constructors fail with the configuration error (the Python assert)
exactly when low_score is not below high_score; the apply methods are
total functions, so no invariant is ever checked at call time. -/
theorem clipped_constructor_validation (upper_x lower_x high_score low_score : ℝ) :
    (mkClippedScoreModifier upper_x lower_x high_score low_score =
        Except.error ModifierError.configurationError ↔ ¬low_score < high_score) ∧
      (mkSmoothClippedScoreModifier upper_x lower_x high_score low_score =
        Except.error ModifierError.configurationError ↔ ¬low_score < high_score) := by
  by_cases hlt : low_score < high_score <;>
    by_cases heq : upper_x = lower_x <;>
      simp [mkClippedScoreModifier, mkSmoothClippedScoreModifier, hlt, heq]

/-- C10: with the documented invariant low_score < high_score satisfied
but upper_x equal to lower_x, both constructors fail with a
division-by-zero error in the slope and steepness computations. -/
theorem clipped_constructor_zero_division (upper_x lower_x high_score low_score : ℝ)
    (hlt : low_score < high_score) (heq : upper_x = lower_x) :
    mkClippedScoreModifier upper_x lower_x high_score low_score =
        Except.error ModifierError.zeroDivisionError ∧
      mkSmoothClippedScoreModifier upper_x lower_x high_score low_score =
        Except.error ModifierError.zeroDivisionError := by
  simp [mkClippedScoreModifier, mkSmoothClippedScoreModifier, hlt, heq]

/-- Witness for C10 at upper_x = lower_x = 1, high_score 1, low_score
0. -/
theorem clipped_constructor_zero_division_witness :
    (0 : ℝ) < 1 ∧
      mkClippedScoreModifier 1 1 1 0 = Except.error ModifierError.zeroDivisionError ∧
      mkSmoothClippedScoreModifier 1 1 1 0 = Except.error ModifierError.zeroDivisionError :=
  ⟨by norm_num, (clipped_constructor_zero_division 1 1 1 0 (by norm_num) rfl).1,
    (clipped_constructor_zero_division 1 1 1 0 (by norm_num) rfl).2⟩

/-- C8: for every Gaussian modifier with positive sigma, apply at mu is
exactly 1, and apply is monotonically non-increasing in the distance
from mu. -/
theorem gaussian_peak_and_monotone (mu sigma x1 x2 : ℝ) (hs : 0 < sigma)
    (hd : |x1 - mu| ≤ |x2 - mu|) :
    GaussianModifier.apply ⟨mu, sigma⟩ mu = 1 ∧
      GaussianModifier.apply ⟨mu, sigma⟩ x2 ≤ GaussianModifier.apply ⟨mu, sigma⟩ x1 := by
  constructor
  · simp [GaussianModifier.apply]
  · unfold GaussianModifier.apply
    apply Real.exp_le_exp.mpr
    have hsq : (x1 - mu) ^ 2 ≤ (x2 - mu) ^ 2 := by
      calc (x1 - mu) ^ 2 = |x1 - mu| ^ 2 := (sq_abs _).symm
        _ ≤ |x2 - mu| ^ 2 := by
            apply pow_le_pow_left₀ (abs_nonneg _) hd
        _ = (x2 - mu) ^ 2 := sq_abs _
    have hdiv : ((x1 - mu) / sigma) ^ 2 ≤ ((x2 - mu) / sigma) ^ 2 := by
      rw [div_pow, div_pow]
      have hs2 : (0 : ℝ) < sigma ^ 2 := by positivity
      exact (div_le_div_iff_of_pos_right hs2).mpr hsq
    linarith

/-- Witness for C8 at mu 0, sigma 1, x1 0, x2 1. -/
theorem gaussian_peak_and_monotone_witness :
    (0 : ℝ) < 1 ∧ |(0 : ℝ) - 0| ≤ |(1 : ℝ) - 0| ∧
      GaussianModifier.apply ⟨0, 1⟩ 0 = 1 ∧
      GaussianModifier.apply ⟨0, 1⟩ 1 ≤ GaussianModifier.apply ⟨0, 1⟩ 0 :=
  ⟨by norm_num, by norm_num,
    (gaussian_peak_and_monotone 0 1 0 1 (by norm_num) (by norm_num)).1,
    (gaussian_peak_and_monotone 0 1 0 1 (by norm_num) (by norm_num)).2⟩

/-- C5 counterexample: at raw score -32/9 the rescaled value is 9,
which exceeds 8; the source smoothing yields 8 + ln(9 + 1 - 9) = 8,
while the formula of the claim yields 8 + ln(9 - 8 + 1) = 8 + ln 2, and
the two differ. -/
theorem sa_smoothing_counterexample :
    saRescale (-32 / 9) = 9 ∧ (8 : ℝ) < 9 ∧ saSmooth 9 = 8 ∧
      saSmoothSpecC5 9 = 8 + Real.log 2 ∧ saSmooth 9 ≠ saSmoothSpecC5 9 ∧
      rescaleSmoothClamp (-32 / 9) = 8 := by
  have h9 : saRescale (-32 / 9) = 9 := by
    unfold saRescale saMin saMax
    norm_num
  have hsm : saSmooth (9 : ℝ) = 8 := by
    unfold saSmooth
    rw [if_pos (by norm_num)]
    norm_num
  have hspec : saSmoothSpecC5 (9 : ℝ) = 8 + Real.log 2 := by
    unfold saSmoothSpecC5
    rw [if_pos (by norm_num)]
    norm_num
  have hlog : (0 : ℝ) < Real.log 2 := Real.log_pos (by norm_num)
  have hclamp : saClamp (8 : ℝ) = 8 := by
    unfold saClamp
    rw [if_neg (by norm_num), if_neg (by norm_num)]
  refine ⟨h9, by norm_num, hsm, hspec, ?_, ?_⟩
  · rw [hsm, hspec]
    exact ne_of_lt (by linarith)
  · unfold rescaleSmoothClamp
    rw [h9, hsm, hclamp]

/-- C5 amended: whenever the rescaled value exceeds 8, the source
smooths it as 8 + ln(final + 1 - 9), that is 8 + ln(final - 8), before
the final clamp to the interval from 1 to 10. -/
theorem sa_smoothing_amended (raw : ℝ) (h : 8 < saRescale raw) :
    saSmooth (saRescale raw) = 8 + Real.log (saRescale raw - 8) ∧
      rescaleSmoothClamp raw = saClamp (8 + Real.log (saRescale raw - 8)) := by
  have h1 : saSmooth (saRescale raw) = 8 + Real.log (saRescale raw - 8) := by
    unfold saSmooth
    rw [if_pos h]
    congr 2
    ring
  refine ⟨h1, ?_⟩
  unfold rescaleSmoothClamp
  rw [h1]

/-- Witness for C5 amended at raw score -32/9, whose rescaled value is
9. -/
theorem sa_smoothing_amended_witness :
    (8 : ℝ) < saRescale (-32 / 9) ∧
      saSmooth (saRescale (-32 / 9)) = 8 + Real.log (saRescale (-32 / 9) - 8) := by
  have h : (8 : ℝ) < saRescale (-32 / 9) := by
    unfold saRescale saMin saMax
    norm_num
  exact ⟨h, (sa_smoothing_amended (-32 / 9) h).1⟩

/-- C4 counterexample: a parseable structure whose molecule yields no
fragments (the shape the toolkit returns for an empty input string)
makes calculateScore divide by a zero fragment count, so SA raises (the
none result) instead of returning a value between 1 and 10. -/
theorem sa_range_counterexample :
    emptyMolAdapter.molFromSmiles "" = some () ∧ SA emptyMolAdapter (some "") = none :=
  ⟨rfl, rfl⟩

/-- C4 amended: for every unparseable string, SA returns exactly the
sentinel 100; for every parseable structure whose molecule yields at
least one fragment occurrence, SA returns a value inside the closed
interval from 1 to 10. -/
theorem sa_range_and_sentinel {Mol FP : Type} (A : ChemAdapter Mol FP) (s : String) :
    (A.molFromSmiles s = none → SA A (some s) = some 100) ∧
      (∀ m : Mol, A.molFromSmiles s = some m → 0 < fragmentTotal (A.features m) →
        ∃ r : ℝ, SA A (some s) = some r ∧ 1 ≤ r ∧ r ≤ 10) := by
  constructor
  · intro h
    simp [SA, h]
  · intro m hm hfrag
    have hne : fragmentTotal (A.features m) ≠ 0 := Nat.pos_iff_ne_zero.mp hfrag
    simp only [SA, hm]
    unfold calculateScore
    rw [if_neg hne]
    exact ⟨_, rfl, (rescaleSmoothClamp_range _).1, (rescaleSmoothClamp_range _).2⟩

/-- Witness for C4 amended at the rejecting adapter and at the one
fragment adapter. -/
theorem sa_range_and_sentinel_witness :
    SA noParseAdapter (some "X") = some 100 ∧
      ∃ r : ℝ, SA oneFragAdapter (some "C") = some r ∧ 1 ≤ r ∧ r ≤ 10 :=
  ⟨(sa_range_and_sentinel noParseAdapter "X").1 rfl,
    (sa_range_and_sentinel oneFragAdapter "C").2 () rfl (by decide)⟩

/-- C3 counterexample: rediscovery_meta applied to an unparseable
candidate string propagates the toolkit failure instead of returning
the documented similarity fallback 0.0, so this public scoring entry
point is not a total function over arbitrary candidate strings. -/
theorem scoring_total_counterexample :
    rediscovery_meta_call noParseAdapter FPKind.ECFP4 () "C1CC" =
        Except.error ChemError.nullMolecule ∧
      ∀ q : ℝ, rediscovery_meta_call noParseAdapter FPKind.ECFP4 () "C1CC" ≠ Except.ok q := by
  refine ⟨rfl, ?_⟩
  intro q h
  exact Except.noConfusion h

/-- C3 amended: on an unparseable candidate, the similarity, qed, SA
and drd2 entry points return their documented fallbacks (0.0, 0.0, 100
and 0.0 respectively), but the MPO evaluators rediscovery_meta and
osimertinib_mpo propagate the toolkit failure instead of returning a
fallback value. -/
theorem scoring_fallbacks_amended {Mol FP : Type} (A : ChemAdapter Mol FP) (s : String)
    (h : A.molFromSmiles s = none) :
    (∀ b : Option String, similarity A (some s) b = 0) ∧
      (∀ a : Option String, similarity A a (some s) = 0) ∧
      qed A (some s) = 0 ∧
      SA A (some s) = some 100 ∧
      drd2 A s = 0 ∧
      (∀ (k : FPKind) (target_fp : FP),
        rediscovery_meta_call A k target_fp s = Except.error ChemError.nullMolecule) ∧
      (∃ e : ChemError, osimertinib_mpo A s = Except.error e) := by
  have hfp4 : smiles_2_fingerprint_FCFP4 A s = Except.error ChemError.nullMolecule := by
    simp [smiles_2_fingerprint_FCFP4, smiles_to_rdkit_mol, h]
  refine ⟨?_, ?_, ?_, ?_, ?_, ?_, ?_⟩
  · intro b
    cases b <;> simp [similarity, h]
  · intro a
    cases a with
    | none => simp [similarity]
    | some stra =>
        cases ha : A.molFromSmiles stra <;> simp [similarity, h, ha]
  · simp [qed, h]
  · simp [SA, h]
  · simp [drd2, h]
  · intro k target_fp
    cases k <;>
      simp [rediscovery_meta_call, fp2fpfunc, smiles_2_fingerprint_ECFP4,
        smiles_2_fingerprint_FCFP4, smiles_2_fingerprint_AP, smiles_2_fingerprint_ECFP6,
        smiles_to_rdkit_mol, h]
  · cases hosi : smiles_2_fingerprint_FCFP4 A osimertinib_smiles with
    | error e => exact ⟨e, by simp [osimertinib_mpo, hosi]⟩
    | ok f1 =>
      cases hosi6 : smiles_2_fingerprint_ECFP6 A osimertinib_smiles with
      | error e => exact ⟨e, by simp [osimertinib_mpo, hosi, hosi6]⟩
      | ok f2 =>
        obtain ⟨mm, hmk⟩ := mkClipped_point8
        exact ⟨ChemError.nullMolecule, by simp [osimertinib_mpo, hosi, hosi6, hmk, hfp4]⟩

/-- Witness for C3 amended at the rejecting adapter and the concrete
candidate string. -/
theorem scoring_fallbacks_amended_witness :
    similarity noParseAdapter (some "C1CC") (some "CC") = 0 ∧
      qed noParseAdapter (some "C1CC") = 0 ∧
      SA noParseAdapter (some "C1CC") = some 100 ∧
      drd2 noParseAdapter "C1CC" = 0 ∧
      rediscovery_meta_call noParseAdapter FPKind.FCFP4 () "C1CC" =
        Except.error ChemError.nullMolecule ∧
      ∃ e : ChemError, osimertinib_mpo noParseAdapter "C1CC" = Except.error e := by
  have h := scoring_fallbacks_amended noParseAdapter "C1CC" rfl
  exact ⟨h.1 (some "CC"), h.2.2.1, h.2.2.2.1, h.2.2.2.2.1,
    h.2.2.2.2.2.1 FPKind.FCFP4 (), h.2.2.2.2.2.2⟩

/-- C9 counterexample: an input containing the malformed token x3 does
not make parsing fail; the scan silently skips the characters that
cannot start a match and returns the remaining tokens. -/
theorem formula_parse_counterexample :
    parse_molecular_formula "C2x3" = [("C", 2)] := rfl

/-- C9 amended: the tokenizer matches one uppercase letter, optional
lowercase letters and optional digits with the count defaulting to 1
when absent, so C2H6 yields the pairs (C, 2) and (H, 6) with total atom
count 8; characters that do not form a valid token are silently
skipped and never raise an error. -/
theorem formula_parse_amended :
    parse_molecular_formula "C2H6" = [("C", 2), ("H", 6)] ∧
      totalAtomCount "C2H6" = 8 ∧
      parse_molecular_formula "CH4" = [("C", 1), ("H", 4)] ∧
      parse_molecular_formula "c2" = [] :=
  ⟨rfl, rfl, rfl, rfl⟩

end TDC
